import Mathlib

/-!
# Verification of the `react-touch-drag-slider` core (src/src/lib/Slider.tsx)

A shallow embedding of the slider's state and event handlers.

The component keeps its state in mutable refs:
`dragging`, `startPos`, `currentTranslate`, `prevTranslate`,
`currentIndex : number | null`, plus the measured `dimensions`
({width, height}) and the DOM element reference `sliderRef`
(modelled as the boolean `attached`: whether `sliderRef.current` is non-null).

Pixel quantities (JS numbers) are modelled as rationals; the pane index is
`Option ℤ` because the source declares it `number | null` and the
`activeIndex` sync effect can in fact store `null` into it.  Where the
source applies the TypeScript non-null assertion `!` inside arithmetic or a
comparison, the runtime JS semantics coerce `null` to `0`
(`null * -w === 0`, `null < k` compares `0 < k`, `null + 1 === 1`);
`jsNumber` captures that coercion.
-/

namespace RTDS

/-- A callback invocation observable by the host: `onSlideStart` /
`onSlideComplete`, carrying the raw `currentIndex.current` value passed
(the source passes the ref's value, which can be `null`). -/
inductive Callback where
  | slideStart (i : Option ℤ)
  | slideComplete (i : Option ℤ)
deriving DecidableEq, Repr

/-- JS `ToNumber` coercion applied to `number | null` values: the runtime
meaning of the source's `currentIndex.current!` inside arithmetic and
relational comparisons (`null` behaves as `0`). -/
def jsNumber : Option ℤ → ℤ
  | none => 0
  | some n => n

/-- The component's mutable state: the refs declared at the top of `Slider`,
the `dimensions` state, whether the slider element is attached
(`sliderRef.current !== null`), the element's CSS transition flag, and the
last `translateX` value pushed to the element's style. -/
structure SliderState where
  dragging : Bool
  startPos : ℚ
  currentTranslate : ℚ
  prevTranslate : ℚ
  currentIndex : Option ℤ
  width : ℚ
  height : ℚ
  attached : Bool
  transitionEnabled : Bool
  renderedTranslate : ℚ
deriving DecidableEq, Repr

/-- Construction-time configuration of the component: `children.length`,
the `threshHold` prop (default 100), and whether the optional
`onSlideStart` / `onSlideComplete` props were supplied. -/
structure SliderConfig where
  numChildren : ℕ
  threshHold : ℚ
  hasSlideStart : Bool
  hasSlideComplete : Bool
deriving DecidableEq, Repr

/-- Initial ref values at mount: `dragging = false`, `startPos = 0`,
`currentTranslate = 0`, `prevTranslate = 0`, `currentIndex = 0`,
`dimensions = {0, 0}`, no transition style set, no transform pushed. -/
def initState (attached : Bool) : SliderState :=
  { dragging := false
    startPos := 0
    currentTranslate := 0
    prevTranslate := 0
    currentIndex := some 0
    width := 0
    height := 0
    attached := attached
    transitionEnabled := false
    renderedTranslate := 0 }

/-- Source `setSliderPosition()`: pushes `currentTranslate` to the element's
transform; returns early (skips the render) when the element is not
attached. -/
def setSliderPosition (s : SliderState) : SliderState :=
  if s.attached then { s with renderedTranslate := s.currentTranslate } else s

/-- Source `setPositionByIndex(w)`: sets
`currentTranslate = prevTranslate = currentIndex * -w` (with the JS
`null`-to-`0` coercion of `currentIndex.current!`) and renders. -/
def setPositionByIndex (w : ℚ) (s : SliderState) : SliderState :=
  setSliderPosition
    { s with
      currentTranslate := (jsNumber s.currentIndex : ℚ) * -w
      prevTranslate := (jsNumber s.currentIndex : ℚ) * -w }

/-- Source `transitionOn()`: enables the settle transition, guarded on the element
being attached. -/
def transitionOn (s : SliderState) : SliderState :=
  if s.attached then { s with transitionEnabled := true } else s

/-- Source `transitionOff()`: disables the settle transition, guarded on the
element being attached. -/
def transitionOff (s : SliderState) : SliderState :=
  if s.attached then { s with transitionEnabled := false } else s

/-- The `useEffect` watching the `activeIndex` prop: when the observed
value differs (`!==`) from `currentIndex.current` — with no null check —
it enables the transition, overwrites `currentIndex.current` with the
observed value (possibly `null`) and calls `setPositionByIndex()`.
It invokes no host callback. -/
def syncActiveIndex (activeIndex : Option ℤ) (s : SliderState) : SliderState :=
  if activeIndex ≠ s.currentIndex then
    setPositionByIndex s.width { transitionOn s with currentIndex := activeIndex }
  else s

/-- The mount-time `useLayoutEffect`: when the element is attached, measure
it, store the dimensions and call `setPositionByIndex` with the fresh
width. -/
def measureOnMount (w h : ℚ) (s : SliderState) : SliderState :=
  if s.attached then
    setPositionByIndex w { s with width := w, height := h }
  else s

/-- Source `handleResize`: disable the transition; when the element is attached,
re-measure, store the dimensions and call `setPositionByIndex` with the
fresh width. -/
def handleResize (w h : ℚ) (s : SliderState) : SliderState :=
  let s1 := transitionOff s
  if s1.attached then
    setPositionByIndex w { s1 with width := w, height := h }
  else s1

/-- Source `handleKeyDown({key})`: for an arrow key, enable the transition and
fire `onSlideStart` with the current index; `ArrowRight` increments the
index when below `children.length - 1`, `ArrowLeft` decrements it when
above 0 (JS coercion of a `null` index to 0 in both the comparison and the
increment); for an arrow key fire `onSlideComplete` with the new index;
then — unconditionally, for every key — call `setPositionByIndex()`. -/
def handleKeyDown (cfg : SliderConfig) (key : String) (s : SliderState) :
    SliderState × List Callback :=
  let arrowsPressed : Bool := key = "ArrowRight" ∨ key = "ArrowLeft"
  let s1 := if arrowsPressed then transitionOn s else s
  let startCbs : List Callback :=
    if arrowsPressed ∧ cfg.hasSlideStart then [.slideStart s1.currentIndex] else []
  let s2 :=
    if key = "ArrowRight" ∧ jsNumber s1.currentIndex < (cfg.numChildren : ℤ) - 1 then
      { s1 with currentIndex := some (jsNumber s1.currentIndex + 1) }
    else s1
  let s3 :=
    if key = "ArrowLeft" ∧ 0 < jsNumber s2.currentIndex then
      { s2 with currentIndex := some (jsNumber s2.currentIndex - 1) }
    else s2
  let completeCbs : List Callback :=
    if arrowsPressed ∧ cfg.hasSlideComplete then [.slideComplete s3.currentIndex] else []
  (setPositionByIndex s3.width s3, startCbs ++ completeCbs)

/-- Source `touchStart(index)(event)`: enable the transition, set
`currentIndex = index` (the pane the gesture began on), record the starting
pointer x, set `dragging = true`, start the animation loop, and fire
`onSlideStart(currentIndex.current)` when supplied. -/
def touchStart (cfg : SliderConfig) (index : ℤ) (x : ℚ) (s : SliderState) :
    SliderState × List Callback :=
  let s1 := transitionOn s
  let s2 := { s1 with currentIndex := some index, startPos := x, dragging := true }
  (s2, if cfg.hasSlideStart then [.slideStart (some index)] else [])

/-- Source `touchMove(event)`: when dragging, set
`currentTranslate = prevTranslate + currentPosition - startPos`; otherwise
do nothing. -/
def touchMove (x : ℚ) (s : SliderState) : SliderState :=
  if s.dragging then
    { s with currentTranslate := s.prevTranslate + x - s.startPos }
  else s

/-- Result of running one event handler: the state afterwards, the host
callbacks it fired in order, and whether it threw a runtime `TypeError`
(the only possible throw site is `touchEnd`'s unguarded
`sliderRef.current!.style.cursor` dereference). -/
structure StepResult where
  state : SliderState
  cbs : List Callback
  threw : Bool
deriving DecidableEq, Repr

/-- Source `touchEnd()`: enable the transition, cancel the animation frame, set
`dragging = false`, compute `movedBy = currentTranslate - prevTranslate`;
increment the index when `movedBy < -threshHold` and the index is below
`children.length - 1`; then (reading the possibly-updated index) decrement
it when `movedBy > threshHold` and the index is above 0; enable the
transition again and call `setPositionByIndex()`.  It then dereferences
`sliderRef.current!` to reset the cursor — throwing when the element is
not attached, in which case `onSlideComplete` is never reached — and
finally fires `onSlideComplete(currentIndex.current!)` when supplied.
Note the handler never checks `dragging` before doing all of this. -/
def touchEnd (cfg : SliderConfig) (s : SliderState) : StepResult :=
  let s1 := transitionOn s
  let s2 := { s1 with dragging := false }
  let movedBy := s2.currentTranslate - s2.prevTranslate
  let s3 :=
    if movedBy < -cfg.threshHold ∧ jsNumber s2.currentIndex < (cfg.numChildren : ℤ) - 1 then
      { s2 with currentIndex := some (jsNumber s2.currentIndex + 1) }
    else s2
  let s4 :=
    if cfg.threshHold < movedBy ∧ 0 < jsNumber s3.currentIndex then
      { s3 with currentIndex := some (jsNumber s3.currentIndex - 1) }
    else s3
  let s5 := setPositionByIndex s4.width (transitionOn s4)
  if s5.attached then
    { state := s5
      cbs := if cfg.hasSlideComplete then [.slideComplete s5.currentIndex] else []
      threw := false }
  else
    { state := s5, cbs := [], threw := true }

/-- The discrete events the component reacts to, plus one tick of the
animation-frame render loop (`animation()` pushes the current translate;
its rescheduling is timing, not state). -/
inductive Op where
  | sync (activeIndex : Option ℤ)
  | measure (w h : ℚ)
  | resize (w h : ℚ)
  | keydown (key : String)
  | tStart (index : ℤ) (x : ℚ)
  | tMove (x : ℚ)
  | tEnd
  | frame
deriving DecidableEq

/-- Lift a pure state transformer (no callbacks, no throw) to a step. -/
def pureStep (s : SliderState) : StepResult :=
  { state := s, cbs := [], threw := false }

/-- One event dispatch. -/
def step (cfg : SliderConfig) : Op → SliderState → StepResult
  | .sync a, s => pureStep (syncActiveIndex a s)
  | .measure w h, s => pureStep (measureOnMount w h s)
  | .resize w h, s => pureStep (handleResize w h s)
  | .keydown k, s =>
      let r := handleKeyDown cfg k s
      { state := r.1, cbs := r.2, threw := false }
  | .tStart i x, s =>
      let r := touchStart cfg i x s
      { state := r.1, cbs := r.2, threw := false }
  | .tMove x, s => pureStep (touchMove x s)
  | .tEnd, s => touchEnd cfg s
  | .frame, s => pureStep (setSliderPosition s)

/-- Events the rendered component can actually deliver: a drag can only
start on a pane that exists, i.e. `touchStart(index)` is registered only
for `0 ≤ index < children.length`.  All other events carry arbitrary
payloads (the host may pass any `activeIndex`, any key can be pressed, any
size can be measured). -/
def validOp (cfg : SliderConfig) : Op → Prop
  | .tStart i _ => 0 ≤ i ∧ i < (cfg.numChildren : ℤ)
  | _ => True

/-- States reachable from mount by any sequence of deliverable events. -/
inductive Reachable (cfg : SliderConfig) : SliderState → Prop
  | init (b : Bool) : Reachable cfg (initState b)
  | next {s : SliderState} (op : Op) (hs : Reachable cfg s) (hop : validOp cfg op) :
      Reachable cfg (step cfg op s).state

/-! ### Field lemmas for the leaf operations -/

@[simp] lemma setSliderPosition_dragging (s : SliderState) :
    (setSliderPosition s).dragging = s.dragging := by
  rw [setSliderPosition]; split <;> rfl

@[simp] lemma setSliderPosition_startPos (s : SliderState) :
    (setSliderPosition s).startPos = s.startPos := by
  rw [setSliderPosition]; split <;> rfl

@[simp] lemma setSliderPosition_currentTranslate (s : SliderState) :
    (setSliderPosition s).currentTranslate = s.currentTranslate := by
  rw [setSliderPosition]; split <;> rfl

@[simp] lemma setSliderPosition_prevTranslate (s : SliderState) :
    (setSliderPosition s).prevTranslate = s.prevTranslate := by
  rw [setSliderPosition]; split <;> rfl

@[simp] lemma setSliderPosition_currentIndex (s : SliderState) :
    (setSliderPosition s).currentIndex = s.currentIndex := by
  rw [setSliderPosition]; split <;> rfl

@[simp] lemma setSliderPosition_width (s : SliderState) :
    (setSliderPosition s).width = s.width := by
  rw [setSliderPosition]; split <;> rfl

@[simp] lemma setSliderPosition_height (s : SliderState) :
    (setSliderPosition s).height = s.height := by
  rw [setSliderPosition]; split <;> rfl

@[simp] lemma setSliderPosition_attached (s : SliderState) :
    (setSliderPosition s).attached = s.attached := by
  rw [setSliderPosition]; split <;> rfl

@[simp] lemma setSliderPosition_transitionEnabled (s : SliderState) :
    (setSliderPosition s).transitionEnabled = s.transitionEnabled := by
  rw [setSliderPosition]; split <;> rfl

@[simp] lemma setSliderPosition_renderedTranslate (s : SliderState) :
    (setSliderPosition s).renderedTranslate =
      if s.attached then s.currentTranslate else s.renderedTranslate := by
  rw [setSliderPosition]; split <;> simp_all

@[simp] lemma transitionOn_dragging (s : SliderState) :
    (transitionOn s).dragging = s.dragging := by
  rw [transitionOn]; split <;> rfl

@[simp] lemma transitionOn_startPos (s : SliderState) :
    (transitionOn s).startPos = s.startPos := by
  rw [transitionOn]; split <;> rfl

@[simp] lemma transitionOn_currentTranslate (s : SliderState) :
    (transitionOn s).currentTranslate = s.currentTranslate := by
  rw [transitionOn]; split <;> rfl

@[simp] lemma transitionOn_prevTranslate (s : SliderState) :
    (transitionOn s).prevTranslate = s.prevTranslate := by
  rw [transitionOn]; split <;> rfl

@[simp] lemma transitionOn_currentIndex (s : SliderState) :
    (transitionOn s).currentIndex = s.currentIndex := by
  rw [transitionOn]; split <;> rfl

@[simp] lemma transitionOn_width (s : SliderState) :
    (transitionOn s).width = s.width := by
  rw [transitionOn]; split <;> rfl

@[simp] lemma transitionOn_height (s : SliderState) :
    (transitionOn s).height = s.height := by
  rw [transitionOn]; split <;> rfl

@[simp] lemma transitionOn_attached (s : SliderState) :
    (transitionOn s).attached = s.attached := by
  rw [transitionOn]; split <;> rfl

@[simp] lemma transitionOn_renderedTranslate (s : SliderState) :
    (transitionOn s).renderedTranslate = s.renderedTranslate := by
  rw [transitionOn]; split <;> rfl

@[simp] lemma transitionOff_dragging (s : SliderState) :
    (transitionOff s).dragging = s.dragging := by
  rw [transitionOff]; split <;> rfl

@[simp] lemma transitionOff_startPos (s : SliderState) :
    (transitionOff s).startPos = s.startPos := by
  rw [transitionOff]; split <;> rfl

@[simp] lemma transitionOff_currentTranslate (s : SliderState) :
    (transitionOff s).currentTranslate = s.currentTranslate := by
  rw [transitionOff]; split <;> rfl

@[simp] lemma transitionOff_prevTranslate (s : SliderState) :
    (transitionOff s).prevTranslate = s.prevTranslate := by
  rw [transitionOff]; split <;> rfl

@[simp] lemma transitionOff_currentIndex (s : SliderState) :
    (transitionOff s).currentIndex = s.currentIndex := by
  rw [transitionOff]; split <;> rfl

@[simp] lemma transitionOff_width (s : SliderState) :
    (transitionOff s).width = s.width := by
  rw [transitionOff]; split <;> rfl

@[simp] lemma transitionOff_height (s : SliderState) :
    (transitionOff s).height = s.height := by
  rw [transitionOff]; split <;> rfl

@[simp] lemma transitionOff_attached (s : SliderState) :
    (transitionOff s).attached = s.attached := by
  rw [transitionOff]; split <;> rfl

@[simp] lemma transitionOff_renderedTranslate (s : SliderState) :
    (transitionOff s).renderedTranslate = s.renderedTranslate := by
  rw [transitionOff]; split <;> rfl

@[simp] lemma setPositionByIndex_dragging (w : ℚ) (s : SliderState) :
    (setPositionByIndex w s).dragging = s.dragging := by
  simp [setPositionByIndex]

@[simp] lemma setPositionByIndex_startPos (w : ℚ) (s : SliderState) :
    (setPositionByIndex w s).startPos = s.startPos := by
  simp [setPositionByIndex]

@[simp] lemma setPositionByIndex_currentTranslate (w : ℚ) (s : SliderState) :
    (setPositionByIndex w s).currentTranslate = (jsNumber s.currentIndex : ℚ) * -w := by
  simp [setPositionByIndex]

@[simp] lemma setPositionByIndex_prevTranslate (w : ℚ) (s : SliderState) :
    (setPositionByIndex w s).prevTranslate = (jsNumber s.currentIndex : ℚ) * -w := by
  simp [setPositionByIndex]

@[simp] lemma setPositionByIndex_currentIndex (w : ℚ) (s : SliderState) :
    (setPositionByIndex w s).currentIndex = s.currentIndex := by
  simp [setPositionByIndex]

@[simp] lemma setPositionByIndex_width (w : ℚ) (s : SliderState) :
    (setPositionByIndex w s).width = s.width := by
  simp [setPositionByIndex]

@[simp] lemma setPositionByIndex_height (w : ℚ) (s : SliderState) :
    (setPositionByIndex w s).height = s.height := by
  simp [setPositionByIndex]

@[simp] lemma setPositionByIndex_attached (w : ℚ) (s : SliderState) :
    (setPositionByIndex w s).attached = s.attached := by
  simp [setPositionByIndex]

@[simp] lemma setPositionByIndex_renderedTranslate (w : ℚ) (s : SliderState) :
    (setPositionByIndex w s).renderedTranslate =
      if s.attached then (jsNumber s.currentIndex : ℚ) * -w else s.renderedTranslate := by
  simp [setPositionByIndex]

@[simp] lemma jsNumber_some (n : ℤ) : jsNumber (some n) = n := rfl

@[simp] lemma jsNumber_none : jsNumber none = 0 := rfl

/-- The committed pane index decided by `touchEnd`, for a non-negative
threshold: the source's two sequential `if`s behave like the nested
conditional because their guards are mutually exclusive when
`0 ≤ threshHold`. -/
lemma touchEnd_currentIndex (cfg : SliderConfig) (s : SliderState) (i : ℤ)
    (ht : 0 ≤ cfg.threshHold) (hi : s.currentIndex = some i) :
    (touchEnd cfg s).state.currentIndex =
      some (if s.currentTranslate - s.prevTranslate < -cfg.threshHold ∧
              i < (cfg.numChildren : ℤ) - 1 then i + 1
            else if cfg.threshHold < s.currentTranslate - s.prevTranslate ∧ 0 < i then i - 1
            else i) := by
  unfold touchEnd
  by_cases h1 : s.currentTranslate - s.prevTranslate < -cfg.threshHold ∧
      i < (cfg.numChildren : ℤ) - 1
  · have hnot2 : ¬ cfg.threshHold < s.currentTranslate - s.prevTranslate := by
      rcases h1 with ⟨hlt, -⟩; linarith
    split <;> simp [hi, h1, hnot2] <;> split <;> simp
  · by_cases h2 : cfg.threshHold < s.currentTranslate - s.prevTranslate ∧ 0 < i
    · split <;> simp [hi, h1, h2] <;> split <;> simp
    · split <;> simp [hi, h1, h2] <;> split <;> simp

/-! ### Concrete configurations and states used by witnesses and
counterexamples -/

/-- A typical configuration: 5 panes, threshold 100, both callbacks
supplied (the spec's scenario of section 8). -/
def cfgA : SliderConfig := ⟨5, 100, true, true⟩

/-- A committed, attached state at index 1 with width 300
(`currentTranslate = prevTranslate = -300`). -/
def committedAt1 : SliderState :=
  { initState true with
    currentIndex := some 1
    width := 300
    currentTranslate := -300
    prevTranslate := -300 }

/-- A mid-drag state at index 1, width 300: the pointer has moved 50px
left of its committed position (`currentTranslate = -350`),
`startPos = 500`, `dragging = true`. -/
def midDragAt1 : SliderState :=
  { committedAt1 with
    dragging := true
    startPos := 500
    currentTranslate := -350 }

/-- The configuration of C1's counterexample: 3 panes and a *negative*
threshold of -5 (the `threshHold` prop is an arbitrary caller-supplied
number; nothing in the source restricts its sign). -/
def cfgNegThreshold : SliderConfig := ⟨3, -5, false, true⟩

/-- A committed, attached state at index 1 of 3, width 10:
`movedBy = currentTranslate - prevTranslate = 0` on release. -/
def c1NegState : SliderState :=
  { initState true with
    currentIndex := some 1
    width := 10 }

/-- A state at index 1, width 300, where a drag moved the pointer 150px to
the left: `currentTranslate = -450`, `prevTranslate = -300`. -/
def draggedLeft150 : SliderState :=
  { committedAt1 with
    dragging := true
    startPos := 500
    currentTranslate := -450 }

/-! ### Claim theorems -/

/-- Claim C1 (amended) --: for every *non-negative* threshold, the release-snap
decision of `touchEnd` increments the index when
`movedBy < -threshold ∧ index < N-1`, decrements it when
`movedBy > threshold ∧ index > 0`, and otherwise leaves it unchanged
(hence `|movedBy| ≤ threshold` never moves it, and it is clamped at both
boundaries).  For a negative threshold the source's two sequential `if`s
are not mutually exclusive and the claim fails (see the counterexample). -/
theorem c1_snap_on_release (cfg : SliderConfig) (s : SliderState) (i : ℤ)
    (ht : 0 ≤ cfg.threshHold) (hi : s.currentIndex = some i) :
    (touchEnd cfg s).state.currentIndex =
      some (if s.currentTranslate - s.prevTranslate < -cfg.threshHold ∧
              i < (cfg.numChildren : ℤ) - 1 then i + 1
            else if cfg.threshHold < s.currentTranslate - s.prevTranslate ∧ 0 < i then i - 1
            else i) :=
  touchEnd_currentIndex cfg s i ht hi

/-- Witness for C1: threshold 100, index 1 of 5, `movedBy = -150` — the
release increments the index to 2 (the spec's section-8 scenario). -/
theorem c1_snap_on_release_witness :
    0 ≤ cfgA.threshHold ∧ draggedLeft150.currentIndex = some 1 ∧
    (touchEnd cfgA draggedLeft150).state.currentIndex =
      some (if draggedLeft150.currentTranslate - draggedLeft150.prevTranslate <
              -cfgA.threshHold ∧ 1 < (cfgA.numChildren : ℤ) - 1 then 1 + 1
            else if cfgA.threshHold <
              draggedLeft150.currentTranslate - draggedLeft150.prevTranslate ∧
              (0 : ℤ) < 1 then 1 - 1
            else 1) :=
  ⟨by decide, rfl, c1_snap_on_release cfgA draggedLeft150 1 (by decide) rfl⟩

/-- Claim C1 counterexample --: with threshold -5, index 1 of 3 and
`movedBy = 0`, the claim's increment conditions
(`movedBy < -threshold` and `index < N-1`) hold, yet `touchEnd` leaves the
index at 1 instead of incrementing it to 2: the source's second `if`
re-reads the already-incremented index and undoes the increment. -/
theorem c1_counterexample :
    c1NegState.currentTranslate - c1NegState.prevTranslate < -cfgNegThreshold.threshHold ∧
    jsNumber c1NegState.currentIndex < (cfgNegThreshold.numChildren : ℤ) - 1 ∧
    (touchEnd cfgNegThreshold c1NegState).state.currentIndex ≠
      some (jsNumber c1NegState.currentIndex + 1) := by
  refine ⟨by norm_num [c1NegState, cfgNegThreshold, initState],
    by norm_num [c1NegState, cfgNegThreshold, initState], ?_⟩
  simp +decide [touchEnd, cfgNegThreshold, c1NegState, initState, setPositionByIndex,
    setSliderPosition, transitionOn, jsNumber]

/-- Claim C10 --: for every non-negative threshold, a single drag-release
changes the index by at most one, and keeps it inside `[0, N-1]` whenever
it started there. -/
theorem c10_release_bounded (cfg : SliderConfig) (s : SliderState) (i : ℤ)
    (ht : 0 ≤ cfg.threshHold) (hi : s.currentIndex = some i)
    (h0 : 0 ≤ i) (hN : i ≤ (cfg.numChildren : ℤ) - 1) :
    ∃ j : ℤ, (touchEnd cfg s).state.currentIndex = some j ∧
      j - i ≤ 1 ∧ i - j ≤ 1 ∧ 0 ≤ j ∧ j ≤ (cfg.numChildren : ℤ) - 1 := by
  refine ⟨_, touchEnd_currentIndex cfg s i ht hi, ?_, ?_, ?_, ?_⟩ <;>
    split_ifs with h1 h2 <;> omega

/-- Witness for C10: releasing the 150px-left drag at index 1 of 5 lands
on an index within one step of 1 and inside `[0, 4]`. -/
theorem c10_release_bounded_witness :
    ∃ j : ℤ, (touchEnd cfgA draggedLeft150).state.currentIndex = some j ∧
      j - 1 ≤ 1 ∧ 1 - j ≤ 1 ∧ 0 ≤ j ∧ j ≤ (cfgA.numChildren : ℤ) - 1 :=
  c10_release_bounded cfgA draggedLeft150 1 (by decide) rfl (by decide) (by decide)

/-- Claim C8 --: `touchMove` is a no-op when `dragging` is false; when dragging
it sets `currentTranslate = prevTranslate + (currentPointerX - startPointerX)`
and never modifies `prevTranslate`, the index, or the dragging flag. -/
theorem c8_touch_move (x : ℚ) (s : SliderState) :
    (touchMove x s).prevTranslate = s.prevTranslate ∧
    (touchMove x s).currentIndex = s.currentIndex ∧
    (touchMove x s).dragging = s.dragging ∧
    (s.dragging = true →
      (touchMove x s).currentTranslate = s.prevTranslate + (x - s.startPos)) ∧
    (s.dragging = false → touchMove x s = s) := by
  unfold touchMove
  by_cases h : s.dragging
  · simp [h]; ring
  · simp [h]

/-- Witness for C8 at a concrete mid-drag state. -/
theorem c8_touch_move_witness :
    (touchMove 350 midDragAt1).prevTranslate = midDragAt1.prevTranslate ∧
    (touchMove 350 midDragAt1).currentIndex = midDragAt1.currentIndex ∧
    (touchMove 350 midDragAt1).dragging = midDragAt1.dragging ∧
    (midDragAt1.dragging = true →
      (touchMove 350 midDragAt1).currentTranslate =
        midDragAt1.prevTranslate + (350 - midDragAt1.startPos)) ∧
    (midDragAt1.dragging = false → touchMove 350 midDragAt1 = midDragAt1) :=
  c8_touch_move 350 midDragAt1

/-- A committed, attached state at the last index (4 of 5), width 300. -/
def committedAtLast : SliderState :=
  { initState true with
    currentIndex := some 4
    width := 300
    currentTranslate := -1200
    prevTranslate := -1200 }

/-- Claim C5 --: a directional key press fires `onSlideStart` (when supplied)
with the pre-press index, moves the index by one within bounds
(`ArrowRight` up to `N-2` increments, `ArrowLeft` down to 1 decrements),
fires `onSlideComplete` (when supplied) with the post-press index, and
re-commits the position via `setPositionByIndex`; at a boundary both
callbacks still fire with the unchanged index. -/
theorem c5_directional_key (cfg : SliderConfig) (key : String) (s : SliderState) (i : ℤ)
    (hk : key = "ArrowRight" ∨ key = "ArrowLeft") (hi : s.currentIndex = some i) :
    (handleKeyDown cfg key s).1.currentIndex =
      some (if key = "ArrowRight" ∧ i < (cfg.numChildren : ℤ) - 1 then i + 1
            else if key = "ArrowLeft" ∧ 0 < i then i - 1 else i) ∧
    (handleKeyDown cfg key s).1.currentTranslate =
      ((if key = "ArrowRight" ∧ i < (cfg.numChildren : ℤ) - 1 then i + 1
        else if key = "ArrowLeft" ∧ 0 < i then i - 1 else i : ℤ) : ℚ) * -s.width ∧
    (handleKeyDown cfg key s).1.prevTranslate =
      (handleKeyDown cfg key s).1.currentTranslate ∧
    (handleKeyDown cfg key s).2 =
      (if cfg.hasSlideStart = true then [Callback.slideStart (some i)] else []) ++
      (if cfg.hasSlideComplete = true
       then [Callback.slideComplete (some
         (if key = "ArrowRight" ∧ i < (cfg.numChildren : ℤ) - 1 then i + 1
          else if key = "ArrowLeft" ∧ 0 < i then i - 1 else i))]
       else []) := by
  rcases hk with h | h <;> subst h
  · by_cases hR : i < (cfg.numChildren : ℤ) - 1 <;>
      simp [handleKeyDown, hi, hR, jsNumber]
  · by_cases hL : 0 < i <;>
      simp [handleKeyDown, hi, hL, jsNumber]

/-- Witness for C5: `ArrowRight` at the last index (4 of 5) — the index
stays 4 and both callbacks re-fire with 4 (the spec's section-8 boundary
scenario). -/
theorem c5_directional_key_witness :
    (handleKeyDown cfgA "ArrowRight" committedAtLast).1.currentIndex =
      some (if "ArrowRight" = "ArrowRight" ∧ (4 : ℤ) < (cfgA.numChildren : ℤ) - 1 then 4 + 1
            else if "ArrowRight" = "ArrowLeft" ∧ (0 : ℤ) < 4 then 4 - 1 else 4) ∧
    (handleKeyDown cfgA "ArrowRight" committedAtLast).1.currentTranslate =
      ((if "ArrowRight" = "ArrowRight" ∧ (4 : ℤ) < (cfgA.numChildren : ℤ) - 1 then 4 + 1
        else if "ArrowRight" = "ArrowLeft" ∧ (0 : ℤ) < 4 then 4 - 1 else 4 : ℤ) : ℚ) *
        -committedAtLast.width ∧
    (handleKeyDown cfgA "ArrowRight" committedAtLast).1.prevTranslate =
      (handleKeyDown cfgA "ArrowRight" committedAtLast).1.currentTranslate ∧
    (handleKeyDown cfgA "ArrowRight" committedAtLast).2 =
      (if cfgA.hasSlideStart = true then [Callback.slideStart (some 4)] else []) ++
      (if cfgA.hasSlideComplete = true
       then [Callback.slideComplete (some
         (if "ArrowRight" = "ArrowRight" ∧ (4 : ℤ) < (cfgA.numChildren : ℤ) - 1 then 4 + 1
          else if "ArrowRight" = "ArrowLeft" ∧ (0 : ℤ) < 4 then 4 - 1 else 4))]
       else []) :=
  c5_directional_key cfgA "ArrowRight" committedAtLast 4 (Or.inl rfl) rfl

/-- Claim C3 (amended) --: a key press whose key is neither `ArrowRight` nor
`ArrowLeft` fires no callback and leaves the index unchanged, but the
handler still unconditionally calls `setPositionByIndex()`: the position
IS recomputed and re-rendered (the whole dispatch equals
`setPositionByIndex` on the current width). -/
theorem c3_non_arrow_key (cfg : SliderConfig) (key : String) (s : SliderState)
    (h1 : key ≠ "ArrowRight") (h2 : key ≠ "ArrowLeft") :
    handleKeyDown cfg key s = (setPositionByIndex s.width s, []) := by
  simp [handleKeyDown, h1, h2]

/-- Witness for C3 (amended): the key `"a"` on a mid-drag state. -/
theorem c3_non_arrow_key_witness :
    handleKeyDown cfgA "a" midDragAt1 =
      (setPositionByIndex midDragAt1.width midDragAt1, []) :=
  c3_non_arrow_key cfgA "a" midDragAt1 (by decide) (by decide)

/-- Claim C3 counterexample --: pressing `"a"` while a drag is mid-flight
(`currentTranslate = -350` vs committed `-300`) resets `currentTranslate`
to `index * -width = -300` and pushes a new transform — the handler does
recompute and re-render the position on a non-directional key (it fires
no callback, as the claim also says). -/
theorem c3_counterexample :
    (handleKeyDown cfgA "a" midDragAt1).1.currentTranslate ≠ midDragAt1.currentTranslate ∧
    (handleKeyDown cfgA "a" midDragAt1).1.renderedTranslate ≠ midDragAt1.renderedTranslate ∧
    (handleKeyDown cfgA "a" midDragAt1).2 = [] := by
  refine ⟨?_, ?_, ?_⟩ <;>
    simp +decide [handleKeyDown, cfgA, midDragAt1, committedAt1, initState,
      setPositionByIndex, setSliderPosition, transitionOn, jsNumber]

/-- Claim C2 (amended) --: on every observation of the external `activeIndex`
that differs (`!==`) from the internal index — *including a null one* —
the sync pass overwrites the internal index with the observed value and
repositions via `setPositionByIndex`, firing neither gesture callback and
never throwing; only an observation equal to the internal index leaves the
state untouched.  (The source has no null check: `null` does not mean "no
external control" when the internal index is non-null.) -/
theorem c2_external_sync (cfg : SliderConfig) (a : Option ℤ) (s : SliderState) :
    (a ≠ s.currentIndex →
      (step cfg (.sync a) s).state.currentIndex = a ∧
      (step cfg (.sync a) s).state.currentTranslate = (jsNumber a : ℚ) * -s.width ∧
      (step cfg (.sync a) s).state.prevTranslate = (jsNumber a : ℚ) * -s.width) ∧
    (a = s.currentIndex → (step cfg (.sync a) s).state = s) ∧
    (step cfg (.sync a) s).cbs = [] ∧
    (step cfg (.sync a) s).threw = false := by
  refine ⟨fun h => ?_, fun h => ?_, rfl, rfl⟩
  · simp [step, pureStep, syncActiveIndex, h]
  · simp [step, pureStep, syncActiveIndex, h]

/-- Witness for C2 (amended): external index 3 against internal index 1. -/
theorem c2_external_sync_witness :
    (some 3 ≠ committedAt1.currentIndex →
      (step cfgA (.sync (some 3)) committedAt1).state.currentIndex = some 3 ∧
      (step cfgA (.sync (some 3)) committedAt1).state.currentTranslate =
        (jsNumber (some 3) : ℚ) * -committedAt1.width ∧
      (step cfgA (.sync (some 3)) committedAt1).state.prevTranslate =
        (jsNumber (some 3) : ℚ) * -committedAt1.width) ∧
    (some 3 = committedAt1.currentIndex →
      (step cfgA (.sync (some 3)) committedAt1).state = committedAt1) ∧
    (step cfgA (.sync (some 3)) committedAt1).cbs = [] ∧
    (step cfgA (.sync (some 3)) committedAt1).threw = false :=
  c2_external_sync cfgA (some 3) committedAt1

/-- Claim C2 counterexample --: at mount the internal index is 0; observing a
null external index (the prop's default) does *not* leave the internal
index unchanged — the sync pass overwrites it with null, because the
source checks only `activeIndex !== currentIndex.current`. -/
theorem c2_counterexample :
    (initState true).currentIndex = some 0 ∧
    (step cfgA (.sync none) (initState true)).state.currentIndex = none := by
  refine ⟨rfl, ?_⟩
  simp +decide [step, pureStep, syncActiveIndex, initState, setPositionByIndex,
    setSliderPosition, transitionOn]

/-- Claim C4 (amended) --: calling `touchEnd` when no drag session is active
(`dragging = false`, position committed, element attached, non-negative
threshold) leaves the index, `currentTranslate` and `prevTranslate`
unchanged and never fires `onSlideStart` — but it is not a no-op: it still
fires `onSlideComplete` (when supplied) with the current index, on every
such call, not only the first. -/
theorem c4_end_without_session (cfg : SliderConfig) (s : SliderState)
    (ht : 0 ≤ cfg.threshHold) (_hd : s.dragging = false)
    (hct : s.currentTranslate = (jsNumber s.currentIndex : ℚ) * -s.width)
    (hpt : s.prevTranslate = s.currentTranslate)
    (ha : s.attached = true) :
    (touchEnd cfg s).state.currentIndex = s.currentIndex ∧
    (touchEnd cfg s).state.currentTranslate = s.currentTranslate ∧
    (touchEnd cfg s).state.prevTranslate = s.prevTranslate ∧
    (touchEnd cfg s).cbs =
      (if cfg.hasSlideComplete = true then [Callback.slideComplete s.currentIndex] else []) ∧
    (touchEnd cfg s).threw = false := by
  have h3 : ¬ cfg.threshHold < 0 := by linarith
  unfold touchEnd
  simp [h3, ha, hpt, hct, sub_self]

/-- Witness for C4 (amended): a second `touchEnd` on the committed state
at index 1 re-fires `onSlideComplete(1)`. -/
theorem c4_end_without_session_witness :
    (touchEnd cfgA committedAt1).state.currentIndex = committedAt1.currentIndex ∧
    (touchEnd cfgA committedAt1).state.currentTranslate = committedAt1.currentTranslate ∧
    (touchEnd cfgA committedAt1).state.prevTranslate = committedAt1.prevTranslate ∧
    (touchEnd cfgA committedAt1).cbs =
      (if cfgA.hasSlideComplete = true
       then [Callback.slideComplete committedAt1.currentIndex] else []) ∧
    (touchEnd cfgA committedAt1).threw = false :=
  c4_end_without_session cfgA committedAt1 (by decide) rfl
    (by norm_num [committedAt1, initState, jsNumber]) rfl rfl

/-- Claim C4 counterexample --: `touchEnd` on a committed, non-dragging state
still invokes `onSlideComplete` — repeated drag-end calls are not
side-effect-free after the first. -/
theorem c4_counterexample :
    committedAt1.dragging = false ∧
    (touchEnd cfgA committedAt1).cbs = [Callback.slideComplete (some 1)] := by
  refine ⟨rfl, ?_⟩
  norm_num [touchEnd, cfgA, committedAt1, initState, setPositionByIndex,
    setSliderPosition, transitionOn, jsNumber]

/-- Claim C6 --: for every index `i` and width `w`, `setPositionByIndex`
makes `currentTranslate` and `prevTranslate` both exactly `i * -w`, and a
second call with the same index and width changes no observable state. -/
theorem c6_set_position_round_trip (w : ℚ) (s : SliderState) (i : ℤ)
    (hi : s.currentIndex = some i) :
    (setPositionByIndex w s).currentTranslate = (i : ℚ) * -w ∧
    (setPositionByIndex w s).prevTranslate = (i : ℚ) * -w ∧
    setPositionByIndex w (setPositionByIndex w s) = setPositionByIndex w s := by
  refine ⟨by simp [hi, jsNumber], by simp [hi, jsNumber], ?_⟩
  obtain ⟨d, sp, ct, pt, ci, w0, h0, a, t, r⟩ := s
  by_cases h : a <;> simp [setPositionByIndex, setSliderPosition, h]

/-- Witness for C6 at index 1, width 300. -/
theorem c6_set_position_round_trip_witness :
    (setPositionByIndex 300 committedAt1).currentTranslate = (1 : ℚ) * -300 ∧
    (setPositionByIndex 300 committedAt1).prevTranslate = (1 : ℚ) * -300 ∧
    setPositionByIndex 300 (setPositionByIndex 300 committedAt1) =
      setPositionByIndex 300 committedAt1 :=
  c6_set_position_round_trip 300 committedAt1 1 rfl

@[simp] lemma syncActiveIndex_dragging (a : Option ℤ) (s : SliderState) :
    (syncActiveIndex a s).dragging = s.dragging := by
  unfold syncActiveIndex; split <;> simp

@[simp] lemma measureOnMount_dragging (w h : ℚ) (s : SliderState) :
    (measureOnMount w h s).dragging = s.dragging := by
  unfold measureOnMount; split <;> simp

@[simp] lemma handleResize_dragging (w h : ℚ) (s : SliderState) :
    (handleResize w h s).dragging = s.dragging := by
  unfold handleResize; dsimp only; split <;> simp

@[simp] lemma handleKeyDown_dragging (cfg : SliderConfig) (k : String) (s : SliderState) :
    (handleKeyDown cfg k s).1.dragging = s.dragging := by
  unfold handleKeyDown
  simp [apply_ite SliderState.dragging]

/-- The committed-position relation of the spec: both translate
accumulators sit exactly at `index * -width` (with the JS null-to-0
coercion of a null index). -/
def Committed (s : SliderState) : Prop :=
  s.currentTranslate = (jsNumber s.currentIndex : ℚ) * -s.width ∧
  s.prevTranslate = (jsNumber s.currentIndex : ℚ) * -s.width

/-- Calling `setPositionByIndex` with the state's own width establishes
the committed-position relation. -/
lemma committed_setPositionByIndex (w : ℚ) (s : SliderState) (hw : s.width = w) :
    Committed (setPositionByIndex w s) := by
  subst hw
  constructor <;> simp [Committed]

/-- Every reachable state that is not mid-drag is committed: each event
handler either keeps `dragging = true` or ends by calling
`setPositionByIndex` with the current width. -/
lemma reachable_not_dragging_committed (cfg : SliderConfig) (s : SliderState)
    (hr : Reachable cfg s) : s.dragging = false → Committed s := by
  induction hr with
  | init b =>
      intro _
      constructor <;> norm_num [initState, jsNumber]
  | @next t op hs hop ih =>
      intro hd
      cases op with
      | sync a =>
          simp only [step, pureStep] at hd ⊢
          have hdt : t.dragging = false := by simpa using hd
          unfold syncActiveIndex
          split
          · exact committed_setPositionByIndex _ _ (by simp)
          · exact ih hdt
      | measure w hh =>
          simp only [step, pureStep] at hd ⊢
          have hdt : t.dragging = false := by simpa using hd
          unfold measureOnMount
          split
          · exact committed_setPositionByIndex _ _ rfl
          · exact ih hdt
      | resize w hh =>
          simp only [step, pureStep] at hd ⊢
          have hdt : t.dragging = false := by simpa using hd
          unfold handleResize
          dsimp only
          split
          · exact committed_setPositionByIndex _ _ rfl
          · constructor <;> simp [(ih hdt).1, (ih hdt).2]
      | keydown k =>
          simp only [step] at hd ⊢
          unfold handleKeyDown
          exact committed_setPositionByIndex _ _ rfl
      | tStart i x =>
          simp only [step] at hd
          simp [touchStart] at hd
      | tMove x =>
          simp only [step, pureStep] at hd ⊢
          by_cases hdr : t.dragging
          · simp [touchMove, hdr] at hd
          · simp only [Bool.not_eq_true] at hdr
            rw [touchMove, if_neg (by simp [hdr])]
            exact ih hdr
      | tEnd =>
          simp only [step] at hd ⊢
          unfold touchEnd
          dsimp only
          simp only [apply_ite StepResult.state, ite_self]
          exact committed_setPositionByIndex _ _ (transitionOn_width _)
      | frame =>
          simp only [step, pureStep] at hd ⊢
          have hdt : t.dragging = false := by simpa using hd
          constructor <;> simp [(ih hdt).1, (ih hdt).2]

/-- Claim C7 --: in every reachable state with no drag session open, the
committed translate satisfies
`currentTranslate = prevTranslate = index * -width` exactly, for the
current index and the last measured width. -/
theorem c7_no_drift (cfg : SliderConfig) (s : SliderState)
    (hr : Reachable cfg s) (hd : s.dragging = false) :
    s.currentTranslate = (jsNumber s.currentIndex : ℚ) * -s.width ∧
    s.prevTranslate = s.currentTranslate := by
  obtain ⟨h1, h2⟩ := reachable_not_dragging_committed cfg s hr hd
  exact ⟨h1, by rw [h1, h2]⟩

/-- Witness for C7 at the mount state. -/
theorem c7_no_drift_witness :
    (initState true).currentTranslate =
      (jsNumber (initState true).currentIndex : ℚ) * -(initState true).width ∧
    (initState true).prevTranslate = (initState true).currentTranslate :=
  c7_no_drift cfgA (initState true) (Reachable.init true) rfl

/-- Claim C9 (amended) --: when the slider element is not attached
(`sliderRef.current === null`), every event handler completes without
failing and skips the render (the pushed transform is unchanged) — except
drag-end: `touchEnd` unconditionally dereferences the element to reset the
cursor and throws a `TypeError` (its position bookkeeping still runs, but
`onSlideComplete` is never reached). -/
theorem c9_detached_render_surface (cfg : SliderConfig) (op : Op) (s : SliderState)
    (h : s.attached = false) :
    ((step cfg op s).threw = true ↔ op = Op.tEnd) ∧
    (step cfg op s).state.renderedTranslate = s.renderedTranslate := by
  cases op with
  | sync a =>
      refine ⟨by simp [step, pureStep], ?_⟩
      simp only [step, pureStep]
      unfold syncActiveIndex
      split <;> simp [h]
  | measure w hh =>
      refine ⟨by simp [step, pureStep], ?_⟩
      simp [step, pureStep, measureOnMount, h]
  | resize w hh =>
      refine ⟨by simp [step, pureStep], ?_⟩
      simp [step, pureStep, handleResize, h]
  | keydown k =>
      refine ⟨by simp [step], ?_⟩
      simp only [step]
      unfold handleKeyDown
      simp [h, apply_ite SliderState.attached, apply_ite SliderState.renderedTranslate]
  | tStart i x =>
      refine ⟨by simp [step], ?_⟩
      simp [step, touchStart, h]
  | tMove x =>
      refine ⟨by simp [step, pureStep], ?_⟩
      simp only [step, pureStep]
      unfold touchMove
      split <;> simp
  | tEnd =>
      constructor
      · simp only [step]
        unfold touchEnd
        simp [h, apply_ite SliderState.attached]
      · simp only [step]
        unfold touchEnd
        simp [h, apply_ite SliderState.attached, apply_ite SliderState.renderedTranslate]
  | frame =>
      refine ⟨by simp [step, pureStep], ?_⟩
      simp [step, pureStep, h]

/-- Witness for C9 (amended): a keydown on a detached mount neither throws
nor renders. -/
theorem c9_detached_render_surface_witness :
    ((step cfgA (Op.keydown "ArrowRight") (initState false)).threw = true ↔
      Op.keydown "ArrowRight" = Op.tEnd) ∧
    (step cfgA (Op.keydown "ArrowRight") (initState false)).state.renderedTranslate =
      (initState false).renderedTranslate :=
  c9_detached_render_surface cfgA (Op.keydown "ArrowRight") (initState false) rfl

/-- Claim C9 counterexample --: drag-end on a detached mount throws (and the
completion callback is skipped) — it does not "complete without
failing". -/
theorem c9_counterexample :
    (initState false).attached = false ∧
    (step cfgA Op.tEnd (initState false)).threw = true ∧
    (step cfgA Op.tEnd (initState false)).cbs = [] := by
  refine ⟨rfl, ?_, ?_⟩ <;>
    norm_num [step, touchEnd, cfgA, initState, setPositionByIndex, setSliderPosition,
      transitionOn, jsNumber]

end RTDS
